import Mathlib

/-
Verification development for the power-market forecasting and bidding server
(`server.js`).  The JavaScript source is shallowly embedded: JS numbers are
modelled as rationals (`ℚ`), with `Option ℚ` used where a value can be `NaN`
(`none` models `NaN`); timestamps are milliseconds since the Unix epoch as
`Int`, and the clock-field extractors (`getHours`, `getDay`) are modelled in
UTC.  Fallible operations return `Except`.
-/

set_option maxRecDepth 4000

/-- Models one raw spreadsheet row after alias resolution, as consumed by
`loadExcelData`.  In the source each field is read through an alias chain
(for example `row[..] || row[..] || row[..]`): `timestamp = none` models the
case where no alias holds a truthy value; for the numeric fields the stored
value is the result of `parseFloat` on the resolved field, with `none`
modelling `NaN` (field missing, falsy, or unparseable). -/
structure RawRow where
  timestamp : Option Int
  price : Option ℚ
  load : Option ℚ
  demand : Option ℚ
  supply : Option ℚ
deriving DecidableEq

/-- Models one element of `powerMarketData`: the record built by the `map`
step of `loadExcelData`.  Numeric fields are JS numbers (`none` = `NaN`). -/
structure MappedItem where
  timestamp : Option Int
  price : Option ℚ
  load : Option ℚ
  demand : Option ℚ
  supply : Option ℚ
deriving DecidableEq

/-- Models the JS expression `v || 0` on a number `v` (`none` = `NaN`):
`NaN` and `0` are falsy and give `0`; every other number passes through.
Since `0 || 0 = 0`, the result is uniformly `some (v.getD 0)` and in
particular is never `NaN`. -/
def jsOrZero (x : Option ℚ) : Option ℚ :=
  some (x.getD 0)

/-- The `map` step of `loadExcelData` (`server.js` lines 48-53): the
timestamp alias value is kept as-is, each numeric field goes through
`parseFloat(...) || 0`. -/
def mapRow (r : RawRow) : MappedItem :=
  { timestamp := r.timestamp
    price := jsOrZero r.price
    load := jsOrZero r.load
    demand := jsOrZero r.demand
    supply := jsOrZero r.supply }

/-- The `filter` predicate of `loadExcelData` (`server.js` line 54):
`item.timestamp && !isNaN(item.price)`.  Truthiness of the timestamp is
`isSome`; `isNaN` of a JS number modelled as `Option ℚ` is `isNone`. -/
def keepItem (it : MappedItem) : Bool :=
  it.timestamp.isSome && !it.price.isNone

/-- The data-preprocessing pipeline of `loadExcelData` (`server.js` lines
48-54): map every concatenated raw row to a record, then filter.  The result
is the content of the `powerMarketData` store. -/
def loadExcelData (rows : List RawRow) : List MappedItem :=
  (rows.map mapRow).filter (fun it => keepItem it)

/-- UTC hour-of-day of an epoch-millisecond timestamp; models
`Date.prototype.getHours` (server clock modelled as UTC). -/
def hourOf (t : Int) : Int :=
  (t.ediv 3600000).emod 24

/-- UTC day-of-week of an epoch-millisecond timestamp, Sunday = 0 ...
Saturday = 6; models `Date.prototype.getDay` (the epoch fell on a
Thursday, hence the offset 4). -/
def dayOf (t : Int) : Int :=
  ((t.ediv 86400000) + 4).emod 7

/-- The time-of-day price adjustment factor of `runPredictionAlgorithm`
(`server.js` lines 94-97): start from 1.0, assign 1.2 on the morning peak
(hour 8-10), assign 1.3 on the evening peak (hour 18-20), then multiply by
0.9 on weekends.  The two peak assignments are sequential overwrites in the
source; the hour bands are disjoint so at most one applies. -/
def timeFactor (t : Int) : ℚ :=
  let h := hourOf t
  let d := dayOf t
  let f1 : ℚ := if 8 ≤ h ∧ h ≤ 10 then (6/5) else 1
  let f2 : ℚ := if 18 ≤ h ∧ h ≤ 20 then (13/10) else f1
  if d = 0 ∨ d = 6 then f2 * (9/10) else f2

/-- Arithmetic mean of a list of rationals; models the
`reduce(...) / length` average in `server.js` line 79 (and the other mean
computations).  Division by zero in `ℚ` yields 0 where JS yields `NaN`. -/
def avgOf (xs : List ℚ) : ℚ :=
  xs.sum / (xs.length : ℚ)

/-- Unbiased sample variance (normalization `n - 1`), the square of
`math.std` with mathjs's default normalization (`server.js` line 80). -/
def varianceUnbiased (xs : List ℚ) : ℚ :=
  ((xs.map (fun x => (x - avgOf xs) ^ 2)).sum) / (((xs.length - 1 : ℕ)) : ℚ)

/-- Proposition that `s` is the standard deviation (mathjs `std`, unbiased
normalization) of `xs`.  The square root is irrational in general, so the
standard deviation is carried as a parameter constrained by this predicate
rather than computed. -/
def IsStd (xs : List ℚ) (s : ℚ) : Prop :=
  0 ≤ s ∧ s ^ 2 = varianceUnbiased xs

/-- Price of a stored record as used in the arithmetic of
`runPredictionAlgorithm`.  After `loadExcelData` the price is never `NaN`,
so the `getD` default is never exercised on store data. -/
def itemPrice (it : MappedItem) : ℚ :=
  it.price.getD 0

/-- Prices of the recent-window slice `powerMarketData.slice(-168)`
(`server.js` line 78): the last 168 records, or all of them when the store
holds fewer. -/
def recentPrices (store : List MappedItem) : List ℚ :=
  (store.drop (store.length - 168)).map itemPrice

/-- One predicted instant as pushed by `runPredictionAlgorithm`
(`server.js` lines 102-108).  The timestamp is epoch milliseconds. -/
structure ForecastPoint where
  timestamp : Int
  predicted_price : ℚ
  confidence_lower : ℚ
  confidence_upper : ℚ
  confidence_level : ℚ
deriving DecidableEq

/-- Timestamp of forecast step `i`: `baseDate.getTime() + i * 15 * 60 * 1000`
(`server.js` line 87). -/
def forecastTimestamp (baseDate : Int) (i : ℕ) : Int :=
  baseDate + (i : Int) * 15 * 60 * 1000

/-- The predicted price before zero-clamping (`server.js` line 99):
`avgPrice * timeFactor + (Math.random() - 0.5) * priceStd * 0.3`, with the
random draw `r` passed in explicitly (`r ∈ [0,1)` for a genuine
`Math.random()` draw). -/
def predictedPriceRaw (avgPrice priceStd : ℚ) (baseDate : Int) (r : ℚ) (i : ℕ) : ℚ :=
  avgPrice * timeFactor (forecastTimestamp baseDate i) + (r - 1/2) * priceStd * (3/10)

/-- The confidence half-band (`server.js` line 100):
`priceStd * (1 - confidence_level) * 2`. -/
def confidenceRange (priceStd confidence_level : ℚ) : ℚ :=
  priceStd * (1 - confidence_level) * 2

/-- One loop iteration of `runPredictionAlgorithm` (`server.js` lines
86-109): build the forecast point for step `i` given the window mean, the
standard deviation, the confidence level, the base date and the random
draw `r` of this step. -/
def predictStep (avgPrice priceStd confidence_level : ℚ) (baseDate : Int) (r : ℚ) (i : ℕ) :
    ForecastPoint :=
  let raw := predictedPriceRaw avgPrice priceStd baseDate r i
  let range := confidenceRange priceStd confidence_level
  { timestamp := forecastTimestamp baseDate i
    predicted_price := max 0 raw
    confidence_lower := max 0 (raw - range)
    confidence_upper := raw + range
    confidence_level := confidence_level }

/-- Failure of the prediction algorithm: the only `throw` reachable from
caller input is the unloaded/empty-store check (`server.js` lines 71-73). -/
inductive PredictError where
  | dataUnavailable
deriving DecidableEq

/-- The prediction algorithm `runPredictionAlgorithm` (`server.js` lines
67-138), restricted to the forecast-point sequence it produces (the
summary-statistics / synthetic-accuracy / model-info metadata carries no
algorithmic content and is not modelled).  `priceStd` is mathjs
`std(recentPrices store)`, carried as a parameter (see `IsStd`); `rand i`
is the `Math.random()` draw of loop step `i`.  The loop `for (i = 0;
i < prediction_hours; i++)` runs `prediction_hours.toNat` times. -/
def runPredictionAlgorithm (store : List MappedItem) (isDataLoaded : Bool) (priceStd : ℚ)
    (prediction_date : Int) (prediction_hours : Int) (confidence_level : ℚ)
    (rand : ℕ → ℚ) : Except PredictError (List ForecastPoint) :=
  if isDataLoaded = false ∨ store.length = 0 then
    Except.error PredictError.dataUnavailable
  else
    Except.ok ((List.range prediction_hours.toNat).map (fun i =>
      predictStep (avgOf (recentPrices store)) priceStd confidence_level
        prediction_date (rand i) i))

/-- Cost parameters as destructured by `runOptimizationAlgorithm`
(`server.js` line 146). -/
structure CostParams where
  generationCost : ℚ
  upwardCost : ℚ
  downwardCost : ℚ
deriving DecidableEq

/-- Strategy label: the strings AGGRESSIVE / CONSERVATIVE of
`server.js` line 197. -/
inductive Strategy where
  | AGGRESSIVE
  | CONSERVATIVE
deriving DecidableEq

/-- Risk label: the strings LOW / MEDIUM / HIGH of `server.js`
lines 187-189. -/
inductive RiskLevel where
  | LOW
  | MEDIUM
  | HIGH
deriving DecidableEq

/-- One per-period bidding decision as pushed onto `biddingSchedule`
(`server.js` lines 174-180). -/
structure BidDecision where
  time_period : Int
  bid_price : ℚ
  bid_capacity : ℚ
  expected_profit : ℚ
  predicted_price : ℚ
deriving DecidableEq

/-- The per-period decision rule of `runOptimizationAlgorithm`
(`server.js` lines 152-180): default bid price = predicted price and
capacity 100; above `1.5 ×` generation cost bid 150 at `0.95 ×` predicted;
below `1.2 ×` generation cost bid 50 at
`max(generationCost * 1.1, predictedPrice * 0.9)`; profit is
`(bidPrice - generationCost) * bidCapacity`. -/
def bidDecision (generationCost : ℚ) (pred : ForecastPoint) : BidDecision :=
  let predictedPrice := pred.predicted_price
  let pc : ℚ × ℚ :=
    if generationCost * (3/2) < predictedPrice then
      (predictedPrice * (19/20), 150)
    else if predictedPrice < generationCost * (6/5) then
      (max (generationCost * (11/10)) (predictedPrice * (9/10)), 50)
    else
      (predictedPrice, 100)
  { time_period := pred.timestamp
    bid_price := pc.1
    bid_capacity := pc.2
    expected_profit := (pc.1 - generationCost) * pc.2
    predicted_price := predictedPrice }

/-- The success result of `runOptimizationAlgorithm` (`server.js` lines
193-205).  `cost_parameters` is the cost configuration echoed back in
`optimization_info`. -/
structure OptimizationResult where
  expected_profit : ℚ
  optimal_capacity : ℚ
  strategy : Strategy
  risk_level : RiskLevel
  bidding_schedule : List BidDecision
  cost_parameters : CostParams
deriving DecidableEq

/-- The bidding optimizer `runOptimizationAlgorithm` (`server.js` lines
141-211).  On an empty forecast sequence the JS mean computations are
`0 / 0 = NaN` where this model yields `0`; both comparisons `NaN > x` and
`0 > 0` are false, so the risk branch taken (LOW) agrees, and no theorem
below relies on the value of `optimal_capacity` in the empty case. -/
def runOptimizationAlgorithm (predictions : List ForecastPoint) (cost : CostParams) :
    OptimizationResult :=
  let schedule := predictions.map (bidDecision cost.generationCost)
  let totalProfit := (schedule.map (fun b => b.expected_profit)).sum
  let avgBidPrice := avgOf (schedule.map (fun b => b.bid_price))
  let avgPredictedPrice := avgOf (predictions.map (fun p => p.predicted_price))
  { expected_profit := totalProfit
    optimal_capacity := avgOf (schedule.map (fun b => b.bid_capacity))
    strategy := if 0 < totalProfit then Strategy.AGGRESSIVE else Strategy.CONSERVATIVE
    risk_level :=
      if avgPredictedPrice * (11/10) < avgBidPrice then RiskLevel.HIGH
      else if avgPredictedPrice * (21/20) < avgBidPrice then RiskLevel.MEDIUM
      else RiskLevel.LOW
    bidding_schedule := schedule
    cost_parameters := cost }

/-- Client-error of the transport routes: missing request body fields
(`server.js` lines 348-353). -/
inductive ApiError where
  | missingInput
deriving DecidableEq

/-- The `/api/optimize` route handler (`server.js` lines 344-363): reject
when `predictions` or `config` is absent (`!predictions || !config`; note
an empty array is truthy in JS, so `some []` passes), otherwise run the
optimizer. -/
def optimizeRoute (predictions : Option (List ForecastPoint)) (config : Option CostParams) :
    Except ApiError OptimizationResult :=
  match predictions, config with
  | some preds, some cfg => Except.ok (runOptimizationAlgorithm preds cfg)
  | _, _ => Except.error ApiError.missingInput

/-- Zero random source: every draw is 0 (a legal `Math.random()` value). -/
def randZero : ℕ → ℚ := fun _ => 0

/-- Store record with the given timestamp and price (other fields 0). -/
def mkItem (t : Int) (p : ℚ) : MappedItem :=
  { timestamp := some t, price := some p, load := some 0, demand := some 0, supply := some 0 }

/-- Two-record store with constant price 5 (standard deviation 0). -/
def store2 : List MappedItem :=
  [mkItem 0 5, mkItem 1 5]

/-- Store of 49 records: 48 zero prices and one price 49.  Mean price 1,
unbiased sample variance (48 * 1 + 48 ^ 2) / 48 = 49, standard deviation 7.
All prices are non-negative. -/
def storeC1 : List MappedItem :=
  List.replicate 48 (mkItem 0 0) ++ [mkItem 0 49]

/-- Store with prices 0, 10, 20: mean 10, unbiased sample variance 100,
standard deviation 10. -/
def storeC8 : List MappedItem :=
  [mkItem 0 0, mkItem 1 10, mkItem 2 20]

/-- The single point returned by the forecast on `storeC1` with standard
deviation 7, base date 0, horizon 1, confidence level 0.9999 and zero random
draws: raw price 1 - 0.15 * 7 = -0.05, range 7 * 0.0001 * 2 = 0.0014, hence
a negative upper confidence bound -0.0486 = -243/5000. -/
def ptC1 : ForecastPoint :=
  { timestamp := 0, predicted_price := 0, confidence_lower := 0
    confidence_upper := -243/5000, confidence_level := 9999/10000 }

/-- The single point returned by the forecast on `store2` with standard
deviation 0, base date 0, horizon 1, confidence level 1/2 and zero draws. -/
def pt5 : ForecastPoint :=
  { timestamp := 0, predicted_price := 5, confidence_lower := 5
    confidence_upper := 5, confidence_level := 1/2 }

/-- The two points returned by the forecast on `store2` with standard
deviation 0, base date 0, horizon 2, confidence level 1/2 and zero draws. -/
def pts2C3 : List ForecastPoint :=
  [{ timestamp := 0, predicted_price := 5, confidence_lower := 5
     confidence_upper := 5, confidence_level := 1/2 },
   { timestamp := 900000, predicted_price := 5, confidence_lower := 5
     confidence_upper := 5, confidence_level := 1/2 }]

/-- Forecast point with predicted price 200 (other fields irrelevant to the
optimizer). -/
def p200 : ForecastPoint :=
  { timestamp := 0, predicted_price := 200, confidence_lower := 0
    confidence_upper := 0, confidence_level := 1/2 }

/-- Forecast point with predicted price 50. -/
def p50 : ForecastPoint :=
  { timestamp := 0, predicted_price := 50, confidence_lower := 0
    confidence_upper := 0, confidence_level := 1/2 }

/-- Cost parameters: generation cost 100, upward cost 1, downward cost 2. -/
def cfg100 : CostParams :=
  { generationCost := 100, upwardCost := 1, downwardCost := 2 }

/-- Raw row with a present timestamp whose price field does not parse as
numeric (`parseFloat` yields `NaN`, modelled `none`). -/
def rowBadPrice : RawRow :=
  { timestamp := some 1, price := none, load := some 0, demand := some 0, supply := some 0 }

/-- The record `loadExcelData` derives from `rowBadPrice`: retained, with
price defaulted to 0. -/
def mappedBadPrice : MappedItem :=
  { timestamp := some 1, price := some 0, load := some 0, demand := some 0, supply := some 0 }

/-- High-price branch of the decision rule (`server.js` lines 160-163). -/
lemma bidDecision_high (gc : ℚ) (pred : ForecastPoint)
    (h1 : gc * (3/2) < pred.predicted_price) :
    bidDecision gc pred =
      { time_period := pred.timestamp
        bid_price := pred.predicted_price * (19/20)
        bid_capacity := 150
        expected_profit := (pred.predicted_price * (19/20) - gc) * 150
        predicted_price := pred.predicted_price } := by
  simp [bidDecision, h1]

/-- Low-price branch of the decision rule (`server.js` lines 164-168). -/
lemma bidDecision_low (gc : ℚ) (pred : ForecastPoint)
    (h1 : ¬ gc * (3/2) < pred.predicted_price)
    (h2 : pred.predicted_price < gc * (6/5)) :
    bidDecision gc pred =
      { time_period := pred.timestamp
        bid_price := max (gc * (11/10)) (pred.predicted_price * (9/10))
        bid_capacity := 50
        expected_profit := (max (gc * (11/10)) (pred.predicted_price * (9/10)) - gc) * 50
        predicted_price := pred.predicted_price } := by
  simp [bidDecision, h1, h2]

/-- Default branch of the decision rule (`server.js` lines 156-157). -/
lemma bidDecision_mid (gc : ℚ) (pred : ForecastPoint)
    (h1 : ¬ gc * (3/2) < pred.predicted_price)
    (h2 : ¬ pred.predicted_price < gc * (6/5)) :
    bidDecision gc pred =
      { time_period := pred.timestamp
        bid_price := pred.predicted_price
        bid_capacity := 100
        expected_profit := (pred.predicted_price - gc) * 100
        predicted_price := pred.predicted_price } := by
  simp [bidDecision, h1, h2]

/-- C2: for every forecast point the optimizer's per-period decision rule
holds: above `1.5 ×` generation cost the decision bids capacity 150 at
`0.95 ×` the predicted price; otherwise below `1.2 ×` generation cost it
bids capacity 50 at `max(generation_cost × 1.1, predicted_price × 0.9)`;
otherwise it bids capacity 100 at the predicted price. -/
theorem claim_C2 (gc : ℚ) (pred : ForecastPoint) :
    (gc * (3/2) < pred.predicted_price →
      (bidDecision gc pred).bid_capacity = 150 ∧
      (bidDecision gc pred).bid_price = pred.predicted_price * (19/20)) ∧
    (¬ gc * (3/2) < pred.predicted_price → pred.predicted_price < gc * (6/5) →
      (bidDecision gc pred).bid_capacity = 50 ∧
      (bidDecision gc pred).bid_price =
        max (gc * (11/10)) (pred.predicted_price * (9/10))) ∧
    (¬ gc * (3/2) < pred.predicted_price → ¬ pred.predicted_price < gc * (6/5) →
      (bidDecision gc pred).bid_capacity = 100 ∧
      (bidDecision gc pred).bid_price = pred.predicted_price) := by
  refine ⟨fun h1 => ?_, fun h1 h2 => ?_, fun h1 h2 => ?_⟩
  · rw [bidDecision_high gc pred h1]; exact ⟨rfl, rfl⟩
  · rw [bidDecision_low gc pred h1 h2]; exact ⟨rfl, rfl⟩
  · rw [bidDecision_mid gc pred h1 h2]; exact ⟨rfl, rfl⟩

/-- Witness for C2: at generation cost 100 and predicted price 200 the high
branch applies, giving capacity 150 and bid price 190. -/
theorem claim_C2_witness :
    (bidDecision 100 p200).bid_capacity = 150 ∧
    (bidDecision 100 p200).bid_price = 190 := by
  have h := (claim_C2 100 p200).1 (by norm_num [p200])
  refine ⟨h.1, ?_⟩
  rw [h.2]
  norm_num [p200]

/-- C7: for every non-empty forecast sequence, each decision's expected
profit is exactly `(bid_price - generation_cost) * bid_capacity`, the
returned total equals the exact sum of the per-decision expected profits,
and the strategy is AGGRESSIVE precisely when the total is positive, else
CONSERVATIVE. -/
theorem claim_C7 (preds : List ForecastPoint) (cost : CostParams) (hne : preds ≠ []) :
    (∀ d ∈ (runOptimizationAlgorithm preds cost).bidding_schedule,
      d.expected_profit = (d.bid_price - cost.generationCost) * d.bid_capacity) ∧
    (runOptimizationAlgorithm preds cost).expected_profit =
      ((runOptimizationAlgorithm preds cost).bidding_schedule.map
        (fun d => d.expected_profit)).sum ∧
    (runOptimizationAlgorithm preds cost).strategy =
      (if 0 < (runOptimizationAlgorithm preds cost).expected_profit
        then Strategy.AGGRESSIVE else Strategy.CONSERVATIVE) := by
  refine ⟨?_, rfl, rfl⟩
  intro d hd
  simp only [runOptimizationAlgorithm, List.mem_map] at hd
  obtain ⟨p, hp, rfl⟩ := hd
  rfl

/-- Witness for C7 at the one-point sequence `[p200]` and generation cost
100: the total equals the sum of per-decision profits and the strategy is
AGGRESSIVE. -/
theorem claim_C7_witness :
    (runOptimizationAlgorithm [p200] cfg100).expected_profit =
      ((runOptimizationAlgorithm [p200] cfg100).bidding_schedule.map
        (fun d => d.expected_profit)).sum ∧
    (runOptimizationAlgorithm [p200] cfg100).strategy = Strategy.AGGRESSIVE := by
  refine ⟨(claim_C7 [p200] cfg100 (by simp)).2.1, ?_⟩
  norm_num [runOptimizationAlgorithm, bidDecision, p200, cfg100]

/-- C9: two optimizer invocations with the same forecast sequence and the
same generation cost but different upward/downward costs produce identical
schedules, total profit, average capacity, strategy and risk level; the
upward and downward costs only reappear in the echoed cost metadata. -/
theorem claim_C9 (preds : List ForecastPoint) (gc u1 d1 u2 d2 : ℚ) :
    (runOptimizationAlgorithm preds ⟨gc, u1, d1⟩).bidding_schedule =
      (runOptimizationAlgorithm preds ⟨gc, u2, d2⟩).bidding_schedule ∧
    (runOptimizationAlgorithm preds ⟨gc, u1, d1⟩).expected_profit =
      (runOptimizationAlgorithm preds ⟨gc, u2, d2⟩).expected_profit ∧
    (runOptimizationAlgorithm preds ⟨gc, u1, d1⟩).optimal_capacity =
      (runOptimizationAlgorithm preds ⟨gc, u2, d2⟩).optimal_capacity ∧
    (runOptimizationAlgorithm preds ⟨gc, u1, d1⟩).strategy =
      (runOptimizationAlgorithm preds ⟨gc, u2, d2⟩).strategy ∧
    (runOptimizationAlgorithm preds ⟨gc, u1, d1⟩).risk_level =
      (runOptimizationAlgorithm preds ⟨gc, u2, d2⟩).risk_level :=
  ⟨rfl, rfl, rfl, rfl, rfl⟩

/-- C10: on the low-price branch with non-negative generation cost, the bid
price is at least `1.1 ×` the generation cost, so the expected profit
`(bid_price - generation_cost) * 50` is at least `5 ×` the generation cost
and hence non-negative. -/
theorem claim_C10 (gc : ℚ) (pred : ForecastPoint) (hgc : 0 ≤ gc)
    (hlow : pred.predicted_price < gc * (6/5)) :
    (bidDecision gc pred).bid_capacity = 50 ∧
    gc * (11/10) ≤ (bidDecision gc pred).bid_price ∧
    (bidDecision gc pred).expected_profit =
      ((bidDecision gc pred).bid_price - gc) * 50 ∧
    5 * gc ≤ (bidDecision gc pred).expected_profit ∧
    0 ≤ (bidDecision gc pred).expected_profit := by
  have h1 : ¬ gc * (3/2) < pred.predicted_price := by
    intro h
    nlinarith
  rw [bidDecision_low gc pred h1 hlow]
  have hmax : gc * (11/10) ≤ max (gc * (11/10)) (pred.predicted_price * (9/10)) :=
    le_max_left _ _
  refine ⟨rfl, hmax, rfl, ?_, ?_⟩
  · nlinarith
  · nlinarith

/-- Witness for C10 at generation cost 100 and predicted price 50: capacity
50 and expected profit at least 500 (it is exactly 500). -/
theorem claim_C10_witness :
    (bidDecision 100 p50).bid_capacity = 50 ∧
    5 * 100 ≤ (bidDecision 100 p50).expected_profit := by
  have h := claim_C10 100 p50 (by norm_num) (by norm_num [p50])
  exact ⟨h.1, h.2.2.2.1⟩

/-- Counterexample to C4: an empty forecast sequence passed to the optimize
operation is not rejected.  The route check only rejects an absent field
(an empty array is truthy in JS), and the optimizer itself succeeds with an
empty schedule, zero total profit and the CONSERVATIVE label. -/
theorem claim_C4_counterexample :
    optimizeRoute (some []) (some cfg100) =
      Except.ok (runOptimizationAlgorithm [] cfg100) ∧
    (runOptimizationAlgorithm [] cfg100).strategy = Strategy.CONSERVATIVE ∧
    (runOptimizationAlgorithm [] cfg100).expected_profit = 0 ∧
    (runOptimizationAlgorithm [] cfg100).bidding_schedule = [] := by
  exact ⟨rfl, by decide, by decide, rfl⟩

/-- C4 amended: the optimize operation does not fail on an empty forecast
sequence.  For every cost configuration it returns a success result with an
empty schedule, total profit 0, strategy CONSERVATIVE and risk LOW (the JS
mean computations are NaN there, and the NaN comparisons select LOW); the
route's client-error rejection fires only for an absent predictions or
config field. -/
theorem claim_C4_amended (cfg : CostParams) :
    (optimizeRoute (some []) (some cfg)).toOption.isSome = true ∧
    (runOptimizationAlgorithm [] cfg).expected_profit = 0 ∧
    (runOptimizationAlgorithm [] cfg).strategy = Strategy.CONSERVATIVE ∧
    (runOptimizationAlgorithm [] cfg).risk_level = RiskLevel.LOW ∧
    (runOptimizationAlgorithm [] cfg).bidding_schedule = [] ∧
    optimizeRoute none (some cfg) = Except.error ApiError.missingInput := by
  refine ⟨rfl, rfl, ?_, ?_, rfl, rfl⟩
  · simp [runOptimizationAlgorithm]
  · simp [runOptimizationAlgorithm, avgOf]

/-- Counterexample to C6: a row with a present timestamp and an unparseable
price is not discarded — `parseFloat(...) || 0` turns the `NaN` into `0`
before the `!isNaN` filter runs, so the derived record (price 0) is
retained in the store. -/
theorem claim_C6_counterexample :
    rowBadPrice.timestamp.isSome = true ∧ rowBadPrice.price = none ∧
    loadExcelData [rowBadPrice] = [mappedBadPrice] := by
  exact ⟨rfl, rfl, by decide⟩

/-- C6 amended: retention is decided by the timestamp alone.  A row whose
timestamp is present (truthy) is always retained — an unparseable price is
defaulted to 0 by the `|| 0` fallback, so the `!isNaN(price)` filter never
rejects any record; rows with a missing/falsy timestamp are discarded. -/
theorem claim_C6_amended (rows : List RawRow) :
    loadExcelData rows = (rows.filter (fun r => r.timestamp.isSome)).map mapRow := by
  induction rows with
  | nil => rfl
  | cons r rs ih =>
    cases hts : r.timestamp.isSome <;>
      simp_all [loadExcelData, keepItem, mapRow, jsOrZero, List.filter_cons, hts]

/-- Inversion for a successful forecast run: the returned sequence is the
mapped range of prediction steps. -/
lemma runPrediction_ok_eq (store : List MappedItem) (s : ℚ) (pd h : Int) (cl : ℚ)
    (rand : ℕ → ℚ) (pts : List ForecastPoint)
    (hok : runPredictionAlgorithm store true s pd h cl rand = Except.ok pts) :
    pts = (List.range h.toNat).map (fun i =>
      predictStep (avgOf (recentPrices store)) s cl pd (rand i) i) := by
  unfold runPredictionAlgorithm at hok
  split at hok
  · exact absurd hok (by simp)
  · injection hok with h2
    exact h2.symm

/-- C3: a successful forecast on a non-empty window with positive integer
horizon returns exactly `horizon` points; point `i` carries timestamp
`start + i * 15 min`, so the first point is at the requested start and the
timestamps are strictly increasing. -/
theorem claim_C3 (store : List MappedItem) (s : ℚ) (pd h : Int) (cl : ℚ)
    (rand : ℕ → ℚ) (hne : store ≠ []) (hpos : 1 ≤ h) (pts : List ForecastPoint)
    (hok : runPredictionAlgorithm store true s pd h cl rand = Except.ok pts) :
    (pts.length : Int) = h ∧
    (∀ i : ℕ, ∀ hi : i < pts.length,
      (pts.get ⟨i, hi⟩).timestamp = pd + (i : Int) * (15 * 60 * 1000)) ∧
    (∀ i j : ℕ, ∀ hi : i < pts.length, ∀ hj : j < pts.length, i < j →
      (pts.get ⟨i, hi⟩).timestamp < (pts.get ⟨j, hj⟩).timestamp) := by
  have hpts := runPrediction_ok_eq store s pd h cl rand pts hok
  subst hpts
  have hlen : ((List.range h.toNat).map (fun i =>
      predictStep (avgOf (recentPrices store)) s cl pd (rand i) i)).length = h.toNat := by
    simp
  have hts : ∀ i : ℕ, ∀ hi : i < ((List.range h.toNat).map (fun i =>
      predictStep (avgOf (recentPrices store)) s cl pd (rand i) i)).length,
      (((List.range h.toNat).map (fun i =>
        predictStep (avgOf (recentPrices store)) s cl pd (rand i) i)).get ⟨i, hi⟩).timestamp =
        pd + (i : Int) * (15 * 60 * 1000) := by
    intro i hi
    simp [predictStep, forecastTimestamp, mul_assoc]
  refine ⟨?_, hts, ?_⟩
  · rw [hlen]
    exact Int.toNat_of_nonneg (le_trans zero_le_one hpos)
  · intro i j hi hj hij
    rw [hts i hi, hts j hj]
    have : (i : Int) < (j : Int) := Int.ofNat_lt.mpr hij
    nlinarith

/-- Witness for C3: the forecast on `store2` (window prices 5, 5) with base
date 0 and horizon 2 returns exactly two points, at timestamps 0 and
900000 (15 minutes). -/
theorem claim_C3_witness :
    ((pts2C3.length : Int) = 2) ∧ pts2C3.map (fun pt => pt.timestamp) = [0, 900000] := by
  have hok : runPredictionAlgorithm store2 true 0 0 2 (1/2) randZero = Except.ok pts2C3 := by
    simp +decide [runPredictionAlgorithm, store2, mkItem, recentPrices, itemPrice, avgOf,
      predictStep, predictedPriceRaw, confidenceRange, timeFactor, forecastTimestamp,
      pts2C3, randZero, List.range_succ]
  exact ⟨(claim_C3 store2 0 0 2 (1/2) randZero (by decide) (by decide) pts2C3 hok).1,
    by decide⟩

/-- Counterexample to C5: the source forecast operation does not reject a
non-positive horizon or an out-of-range confidence level.  With horizon -5
it succeeds with an empty prediction list, and with confidence level 2 and
horizon 24 it succeeds with 24 points. -/
theorem claim_C5_counterexample :
    runPredictionAlgorithm store2 true 0 0 (-5) (1/2) randZero = Except.ok [] ∧
    ((runPredictionAlgorithm store2 true 0 0 24 2 randZero).toOption.getD []).length = 24 := by
  constructor
  · rfl
  · simp +decide [runPredictionAlgorithm]

/-- C5 amended: the source performs no horizon or confidence-level
validation.  On a loaded non-empty store every request succeeds: a
non-positive horizon yields a success result with an empty prediction
list (the loop body never runs), and any confidence level — in or out of
(0,1) — is accepted. -/
theorem claim_C5_amended (store : List MappedItem) (s : ℚ) (pd h : Int) (cl : ℚ)
    (rand : ℕ → ℚ) (hne : store ≠ []) :
    (∃ pts, runPredictionAlgorithm store true s pd h cl rand = Except.ok pts) ∧
    (h ≤ 0 → runPredictionAlgorithm store true s pd h cl rand = Except.ok []) := by
  have hcond : ¬ (true = false ∨ store.length = 0) := by
    simp [List.length_eq_zero, hne]
  constructor
  · exact ⟨_, by rw [runPredictionAlgorithm, if_neg hcond]⟩
  · intro hh
    rw [runPredictionAlgorithm, if_neg hcond, Int.toNat_of_nonpos hh]
    rfl

/-- Witness for C5 amended: on `store2` a request with horizon -5 succeeds
with the empty prediction list. -/
theorem claim_C5_amended_witness :
    runPredictionAlgorithm store2 true 0 0 (-5) (1/2) randZero = Except.ok [] :=
  (claim_C5_amended store2 0 0 (-5) (1/2) randZero (by decide)).2 (by decide)

/-- The recent-window prices of `store2`. -/
lemma recent_store2 : recentPrices store2 = [5, 5] := by
  decide

/-- Mean price of the `store2` window. -/
lemma avg_store2 : avgOf (recentPrices store2) = 5 := by
  rw [recent_store2]
  simp [avgOf]

/-- Time factor at the epoch instant (hour 0, a Thursday): 1. -/
lemma timeFactor_zero : timeFactor 0 = 1 := by
  simp +decide [timeFactor]

/-- The singleton step range of a horizon-1 forecast. -/
lemma range_one_eq : List.range 1 = [0] := by
  decide

/-- The recent-window prices of `storeC1`. -/
lemma recent_storeC1 : recentPrices storeC1 = List.replicate 48 0 ++ [49] := by
  decide

/-- Mean price of the `storeC1` window. -/
lemma avg_storeC1 : avgOf (recentPrices storeC1) = 1 := by
  rw [recent_storeC1]
  simp [avgOf]

/-- Standard deviation of the `storeC1` window: 7 (unbiased sample variance
(48 * 1 + 48 ^ 2) / 48 = 49). -/
lemma std_storeC1 : IsStd (recentPrices storeC1) 7 := by
  constructor
  · norm_num
  · rw [recent_storeC1, varianceUnbiased]
    have havg : avgOf (List.replicate 48 (0:ℚ) ++ [49]) = 1 := by
      rw [← recent_storeC1, avg_storeC1]
    rw [havg]
    simp [List.sum_replicate]
    norm_num

/-- Standard deviation of the `store2` window (constant prices): 0. -/
lemma std_store2 : IsStd (recentPrices store2) 0 := by
  constructor
  · norm_num
  · rw [recent_store2, varianceUnbiased]
    have havg : avgOf ([5, 5] : List ℚ) = 5 := by
      simp [avgOf]
    rw [havg]
    norm_num

/-- C1 amended: for every point of a successful forecast (with the window's
standard deviation as spread and confidence level at most 1), the lower
confidence bound is non-negative and at most the clamped predicted price,
unconditionally; the upper bound is at least the clamped predicted price
and non-negative whenever the unclamped predicted price plus the confidence
range is non-negative (in particular whenever the unclamped predicted price
is non-negative). -/
theorem claim_C1_amended (store : List MappedItem) (s : ℚ) (pd h : Int) (cl : ℚ)
    (rand : ℕ → ℚ) (hs : IsStd (recentPrices store) s) (hcl : cl ≤ 1)
    (pts : List ForecastPoint)
    (hok : runPredictionAlgorithm store true s pd h cl rand = Except.ok pts)
    (i : ℕ) (hi : i < pts.length) :
    0 ≤ (pts.get ⟨i, hi⟩).confidence_lower ∧
    (pts.get ⟨i, hi⟩).confidence_lower ≤ (pts.get ⟨i, hi⟩).predicted_price ∧
    (0 ≤ predictedPriceRaw (avgOf (recentPrices store)) s pd (rand i) i +
        confidenceRange s cl →
      (pts.get ⟨i, hi⟩).predicted_price ≤ (pts.get ⟨i, hi⟩).confidence_upper ∧
      0 ≤ (pts.get ⟨i, hi⟩).confidence_upper) := by
  have hpts := runPrediction_ok_eq store s pd h cl rand pts hok
  subst hpts
  have hget : (((List.range h.toNat).map (fun j =>
      predictStep (avgOf (recentPrices store)) s cl pd (rand j) j)).get ⟨i, hi⟩) =
      predictStep (avgOf (recentPrices store)) s cl pd (rand i) i := by
    have hi2 : i < h.toNat := by simpa using hi
    simp [List.get_eq_getElem]
  rw [hget]
  have hrng : 0 ≤ confidenceRange s cl := by
    have h1 : (0:ℚ) ≤ 1 - cl := by linarith
    have := mul_nonneg (mul_nonneg hs.1 h1) (by norm_num : (0:ℚ) ≤ 2)
    simpa [confidenceRange] using this
  simp only [predictStep]
  refine ⟨le_max_left _ _, max_le_max le_rfl (sub_le_self _ hrng), fun hpos => ⟨?_, hpos⟩⟩
  exact max_le hpos (le_add_of_nonneg_right hrng)

/-- Witness for C1 amended at the forecast on `store2` (spread 0,
confidence level 1/2, zero draws): the single returned point has both
bounds equal to the predicted price 5 and non-negative. -/
theorem claim_C1_amended_witness :
    0 ≤ pt5.confidence_lower ∧ pt5.confidence_lower ≤ pt5.predicted_price ∧
    pt5.predicted_price ≤ pt5.confidence_upper ∧ 0 ≤ pt5.confidence_upper := by
  have hok : runPredictionAlgorithm store2 true 0 0 1 (1/2) randZero = Except.ok [pt5] := by
    simp +decide [runPredictionAlgorithm, avg_store2, predictStep, predictedPriceRaw,
      confidenceRange, timeFactor, forecastTimestamp, pt5, randZero, range_one_eq]
      <;> norm_num
  have h := claim_C1_amended store2 0 0 1 (1/2) randZero std_store2 (by norm_num)
    [pt5] hok 0 (by simp)
  have hraw : 0 ≤ predictedPriceRaw (avgOf (recentPrices store2)) 0 0 (randZero 0) 0 +
      confidenceRange 0 (1/2) := by
    rw [avg_store2]
    norm_num [predictedPriceRaw, forecastTimestamp, timeFactor_zero, confidenceRange,
      randZero]
  obtain ⟨hu1, hu2⟩ := h.2.2 hraw
  exact ⟨h.1, h.2.1, hu1, hu2⟩

/-- Counterexample to C1: on the all-non-negative window of `storeC1`
(mean 1, standard deviation 7), with confidence level 0.9999 and a zero
random draw, the returned point has a negative upper confidence bound
-243/5000, strictly below the clamped predicted price 0 — refuting both
`confidence_upper ≥ predicted_price` and `confidence_upper ≥ 0`. -/
theorem claim_C1_counterexample :
    IsStd (recentPrices storeC1) 7 ∧
    runPredictionAlgorithm storeC1 true 7 0 1 (9999/10000) randZero = Except.ok [ptC1] ∧
    ptC1.confidence_upper < 0 ∧
    ptC1.confidence_upper < ptC1.predicted_price := by
  refine ⟨std_storeC1, ?_, by norm_num [ptC1], by norm_num [ptC1]⟩
  simp +decide [runPredictionAlgorithm, avg_storeC1, predictStep, predictedPriceRaw,
    confidenceRange, timeFactor, forecastTimestamp, randZero, ptC1, range_one_eq]
    <;> norm_num

/-- C8: for every forecast step whose timestamp falls in the morning or
evening peak band on a non-weekend day, and every random draw in [0,1),
the predicted price before zero-clamping differs from
`base_price * time_factor` by at most `0.3 * price_spread` (the actual
noise magnitude is at most `0.15 * price_spread`). -/
theorem claim_C8 (store : List MappedItem) (s : ℚ) (pd : Int) (i : ℕ) (r : ℚ)
    (hs : IsStd (recentPrices store) s) (hr0 : 0 ≤ r) (hr1 : r < 1)
    (hhour : (8 ≤ hourOf (forecastTimestamp pd i) ∧ hourOf (forecastTimestamp pd i) ≤ 10) ∨
      (18 ≤ hourOf (forecastTimestamp pd i) ∧ hourOf (forecastTimestamp pd i) ≤ 20))
    (hday : dayOf (forecastTimestamp pd i) ≠ 0 ∧ dayOf (forecastTimestamp pd i) ≠ 6) :
    |predictedPriceRaw (avgOf (recentPrices store)) s pd r i -
      avgOf (recentPrices store) * timeFactor (forecastTimestamp pd i)| ≤ (3/10) * s := by
  have hs0 := hs.1
  have hcancel : predictedPriceRaw (avgOf (recentPrices store)) s pd r i -
      avgOf (recentPrices store) * timeFactor (forecastTimestamp pd i) =
      (r - 1/2) * s * (3/10) := by
    rw [predictedPriceRaw]
    ring
  rw [hcancel, abs_mul, abs_mul, abs_of_nonneg hs0,
    abs_of_nonneg (by norm_num : (0:ℚ) ≤ 3/10)]
  have h1 : |r - 1/2| ≤ 1/2 := abs_le.mpr ⟨by linarith, by linarith⟩
  have h2 : |r - 1/2| * s ≤ (1/2) * s := mul_le_mul_of_nonneg_right h1 hs0
  have h3 : |r - 1/2| * s * (3/10) ≤ (1/2) * s * (3/10) :=
    mul_le_mul_of_nonneg_right h2 (by norm_num)
  linarith

/-- Witness for C8 on `storeC8` (mean 10, standard deviation 10) at a
weekday 09:00 timestamp with a zero draw: the raw prediction deviates from
`base_price * time_factor` by 3/2, within the bound 3. -/
theorem claim_C8_witness :
    |predictedPriceRaw (avgOf (recentPrices storeC8)) 10 32400000 0 0 -
      avgOf (recentPrices storeC8) * timeFactor (forecastTimestamp 32400000 0)| ≤
      (3/10) * 10 := by
  refine claim_C8 storeC8 10 32400000 0 0 ?_ (by norm_num) (by norm_num) ?_ ?_
  · constructor
    · norm_num
    · have hrec : recentPrices storeC8 = [0, 10, 20] := by decide
      rw [hrec, varianceUnbiased]
      have havg : avgOf ([0, 10, 20] : List ℚ) = 10 := by
        simp [avgOf]
        norm_num
      rw [havg]
      norm_num
  · left
    constructor <;> decide
  · constructor <;> decide
